import Mathlib

/-!
Verification of the canvas generation-orchestration pipeline.

Shallow embedding of the activity-driven generation pipeline of the
`madhacks` whiteboard application.  The embedded code is the canonical
board view (`src/app/board/[id]/page.tsx`): the `generateSolution`
callback of `BoardContent`, the editor-change cancellation handler,
the accept/reject handlers for pending generated images, the
`useDebounceActivity` hook, and the voice-agent tool dispatcher
`handleFunctionCall` of `VoiceAgentControls`.

The program is single-threaded and event driven.  An asynchronous run of
`generateSolution` is modelled as a pure function from a board state, the
call options and an environment (the responses of the external
collaborators, plus one boolean per suspension point saying whether a
user document-mutation event fires while the run is suspended there) to
the final board state together with a trace of externally visible
effects.  Between suspension points the code runs atomically, so this
captures every interleaving the event loop can produce.

Machine numbers that enter geometry (viewport bounds, image pixel
dimensions, opacities) are modelled as rationals; the concrete scenarios
checked below are exact in binary floating point as well.
-/

namespace Madhacks

/-- Assistance strength selected in the UI tabs, or overridden per call
(`"off" | "feedback" | "suggest" | "answer"`). -/
inductive AssistMode where
  | off
  | feedback
  | suggest
  | answer
deriving DecidableEq, Repr

/-- `StatusIndicatorState` from `components/StatusIndicator.tsx`. -/
inductive Status where
  | idle
  | generating
  | success
  | error
deriving DecidableEq, Repr

/-- Argument of the mode-aware status message helper. -/
inductive StatusType where
  | generating
  | success
deriving DecidableEq, Repr

/-- `getStatusMessage` from `BoardContent` (page.tsx lines 732-757). -/
def getStatusMessage (mode : AssistMode) (statusType : StatusType) : String :=
  match statusType, mode with
  | .generating, .off => ""
  | .generating, .feedback => "Adding feedback..."
  | .generating, .suggest => "Generating suggestion..."
  | .generating, .answer => "Solving problem..."
  | .success, .off => ""
  | .success, .feedback => "Feedback added"
  | .success, .suggest => "Suggestion added"
  | .success, .answer => "Solution added"

/-- A tldraw shape as far as the pipeline observes it: identity, page
position, size, opacity and lock flag. -/
structure TLShape where
  id : Nat
  x : ℚ
  y : ℚ
  w : ℚ
  h : ℚ
  opacity : ℚ
  isLocked : Bool
deriving DecidableEq, Repr

/-- A tldraw image asset record created for a generated overlay. -/
structure TLAsset where
  id : Nat
  w : ℚ
  h : ℚ
  src : String
deriving DecidableEq, Repr

/-- Viewport page bounds (`editor.getViewportPageBounds()`). -/
structure Bounds where
  x : ℚ
  y : ℚ
  width : ℚ
  height : ℚ
deriving DecidableEq, Repr

/-- The mutable state of one `BoardContent` canvas view: the canvas
document (shapes and assets), the React component state of the view and
the refs used by the pipeline. -/
structure BoardState where
  shapes : List TLShape
  assets : List TLAsset
  /-- `pendingImageIds` state: provisional generated shapes. -/
  pendingImageIds : List Nat
  status : Status
  statusMessage : String
  errorMessage : String
  /-- `isProcessingRef.current`: the single-flight in-flight flag. -/
  isProcessing : Bool
  /-- whether `abortControllerRef.current` is non-null. -/
  hasAbortController : Bool
  /-- `lastCanvasImageRef.current`: the stored canvas fingerprint. -/
  lastCanvasImage : Option String
  /-- `isUpdatingImageRef.current`: the self-mutation suppression flag. -/
  isUpdatingImage : Bool
  /-- `isVoiceSessionActive` state as seen by this closure. -/
  isVoiceSessionActive : Bool
  assistanceMode : AssistMode
  viewport : Bounds
deriving DecidableEq, Repr

/-- Options of `generateSolution` (`modeOverride`, `promptOverride`,
`force`). -/
structure GenOptions where
  modeOverride : Option AssistMode := none
  promptOverride : Option String := none
  force : Bool := false
deriving DecidableEq, Repr

/-- Externally visible effects of one pipeline run.  Effects that mutate
the canvas document record the value of the suppression flag
(`isUpdatingImageRef.current`) at the moment the mutation is performed. -/
inductive Effect where
  /-- `editor.toImage` and base64 read of the given shape ids. -/
  | capture (shapeIds : List Nat)
  /-- POST `/api/generate-solution` with the given mode and prompt. -/
  | fetchSolution (mode : AssistMode) (prompt : Option String)
  /-- decoding the returned image to obtain its pixel dimensions. -/
  | loadImage
  /-- `editor.createAssets` (canvas mutation). -/
  | createAsset (assetId : Nat) (suppressed : Bool)
  /-- `editor.createShape` (canvas mutation). -/
  | createShape (shapeId : Nat) (suppressed : Bool)
  /-- `editor.updateShape` (canvas mutation). -/
  | updateShape (shapeId : Nat) (suppressed : Bool)
  /-- `editor.deleteShape` (canvas mutation). -/
  | deleteShape (shapeId : Nat) (suppressed : Bool)
deriving DecidableEq, Repr

/-- Whether an effect mutates the canvas document. -/
def Effect.isCanvasMutation : Effect → Bool
  | .capture _ => false
  | .fetchSolution _ _ => false
  | .loadImage => false
  | .createAsset _ _ => true
  | .createShape _ _ => true
  | .updateShape _ _ => true
  | .deleteShape _ _ => true

/-- The suppression-flag value recorded with a canvas mutation
(irrelevant `true` for non-mutations). -/
def Effect.suppressedFlag : Effect → Bool
  | .capture _ => true
  | .fetchSolution _ _ => true
  | .loadImage => true
  | .createAsset _ s => s
  | .createShape _ s => s
  | .updateShape _ s => s
  | .deleteShape _ s => s

/-- Whether the effect materializes a generated result onto the canvas
(asset or shape creation). -/
def Effect.isCreation : Effect → Bool
  | .createAsset _ _ => true
  | .createShape _ _ => true
  | _ => false

/-- The responses of the external collaborators during one run, plus one
boolean per suspension point recording whether a user document-mutation
event fires while the run is suspended there. -/
structure GenEnv where
  /-- The tldraw raster export: shapes content and bounds determine the
  base64 encoding (the export with `scale 1`, `padding 0`,
  `background true` is deterministic); `none` models a null blob. -/
  captureFn : List TLShape → Bounds → Option String
  mutDuringToImage : Bool
  mutDuringRead : Bool
  mutDuringFetch : Bool
  mutDuringJson : Bool
  mutDuringLoad : Bool
  /-- `solutionResponse.ok`. -/
  respOk : Bool
  /-- `solutionData.imageUrl` (null is a valid no-help outcome). -/
  imageUrl : Option String
  /-- `solutionData.textContent`. -/
  textContent : String
  /-- whether the generated image decodes successfully. -/
  imgLoadOk : Bool
  imgW : ℚ
  imgH : ℚ
  /-- `AssetRecordType.createId()`. -/
  newAssetId : Nat
  /-- `createShapeId()`. -/
  newShapeId : Nat

/-- `handleEditorChange` (page.tsx lines 992-1005): a user document
mutation is ignored while the suppression flag is set; otherwise, if a
generation is in flight, it aborts the shared signal, resets the status
to idle and clears the in-flight flag. -/
def handleEditorChange (st : BoardState) : BoardState :=
  if st.isUpdatingImage then st
  else if st.hasAbortController then
    { st with hasAbortController := false, status := .idle,
              statusMessage := "", isProcessing := false }
  else st

/-- Whether a mutation event delivered now calls `abort()` on the shared
signal of the in-flight run. -/
def mutationAborts (st : BoardState) : Bool :=
  !st.isUpdatingImage && st.hasAbortController

/-- Board state after a suspension point at which a mutation event fires
iff `ev`. -/
def applyMutState (st : BoardState) (ev : Bool) : BoardState :=
  if ev then handleEditorChange st else st

/-- `signal.aborted` after a suspension point at which a mutation event
fires iff `ev`, given its value `sig` before. -/
def applyMutSig (st : BoardState) (ev : Bool) (sig : Bool) : Bool :=
  sig || (ev && mutationAborts st)

/-- The `finally` block of `generateSolution`: reset the in-flight flag
and drop the abort controller. -/
def finalize (st : BoardState) : BoardState :=
  { st with isProcessing := false, hasAbortController := false }

/-- The shapes captured for the fingerprint: all current page shapes
except the pending generated images (page.tsx line 788). -/
def shapesToCapture (st : BoardState) : List TLShape :=
  st.shapes.filter (fun s => !st.pendingImageIds.contains s.id)

/-- Scale-to-fit factor computed at materialization (page.tsx lines
914-917): `min(viewportWidth / imgWidth, viewportHeight / imgHeight)`. -/
def fitScale (viewport : Bounds) (imgW imgH : ℚ) : ℚ :=
  min (viewport.width / imgW) (viewport.height / imgH)

/-- The locked overlay shape created at materialization (page.tsx lines
925-937): scaled to fit and centered in the viewport, fully opaque in
feedback mode and ghosted at opacity 0.3 otherwise. -/
def materializedShape (viewport : Bounds) (imgW imgH : ℚ) (shapeId : Nat)
    (isFeedbackMode : Bool) : TLShape :=
  let scale := fitScale viewport imgW imgH
  let shapeWidth := imgW * scale
  let shapeHeight := imgH * scale
  { id := shapeId
    x := viewport.x + (viewport.width - shapeWidth) / 2
    y := viewport.y + (viewport.height - shapeHeight) / 2
    w := shapeWidth
    h := shapeHeight
    opacity := if isFeedbackMode then 1 else 3 / 10
    isLocked := true }

/-- Materializing stage of `generateSolution` (page.tsx lines 893-950),
synchronous: the suppression flag is set, the asset and the locked
reduced-opacity shape are created, and (outside feedback mode) the shape
id is appended to the pending list.  The run then completes through the
`finally` block; the 2 s status-reset and 100 ms suppression-reset
timers are still pending in the returned state. -/
def genMaterialize (st7 : BoardState) (mode : AssistMode) (viewportBounds : Bounds)
    (env : GenEnv) (effs : List Effect) : BoardState × List Effect :=
  let st8 : BoardState := { st7 with isUpdatingImage := true }
  let asset : TLAsset :=
    { id := env.newAssetId, w := env.imgW, h := env.imgH, src := env.imageUrl.getD "" }
  let st9 : BoardState := { st8 with assets := st8.assets ++ [asset] }
  let isFeedbackMode := mode = AssistMode.feedback
  let shape := materializedShape viewportBounds env.imgW env.imgH env.newShapeId isFeedbackMode
  let st10 : BoardState := { st9 with shapes := st9.shapes ++ [shape] }
  let st11 : BoardState :=
    if isFeedbackMode then st10
    else { st10 with pendingImageIds := st10.pendingImageIds ++ [env.newShapeId] }
  let st12 : BoardState :=
    { st11 with status := .success, statusMessage := getStatusMessage mode .success }
  (finalize st12,
   effs ++ [Effect.createAsset env.newAssetId st8.isUpdatingImage,
            Effect.createShape env.newShapeId st8.isUpdatingImage])

/-- Image decode stage of `generateSolution` (page.tsx lines 868-891):
await the generated image, handling a decode failure (pipeline error
unless the signal was aborted) and the post-decode abort check. -/
def genLoadImage (st6 : BoardState) (mode : AssistMode) (viewportBounds : Bounds)
    (env : GenEnv) (effs : List Effect) : BoardState × List Effect :=
  let effs2 := effs ++ [Effect.loadImage]
  let st7 := applyMutState st6 env.mutDuringLoad
  let sig7 := applyMutSig st6 env.mutDuringLoad false
  if !env.imgLoadOk then
    -- `img.onerror` rejects; the catch distinguishes abort from failure
    if sig7 then (finalize { st7 with status := .idle, statusMessage := "" }, effs2)
    else (finalize { st7 with errorMessage := "Failed to load generated image",
                              status := .error, statusMessage := "" }, effs2)
  else if sig7 then (finalize st7, effs2)  -- line 889: bare `return`
  else genMaterialize st7 mode viewportBounds env effs2

/-- Response handling stage of `generateSolution` (page.tsx lines
843-866): non-ok responses (or an abort that rejected the fetch) throw;
a null image URL means the model decided no help is needed and the run
ends cleanly in idle. -/
def genHandleResponse (st4 : BoardState) (mode : AssistMode) (viewportBounds : Bounds)
    (env : GenEnv) (effs1 : List Effect) : BoardState × List Effect :=
  let st5 := applyMutState st4 env.mutDuringFetch
  let sig5 := applyMutSig st4 env.mutDuringFetch false
  if sig5 then
    -- catch with `signal.aborted` (lines 957-961)
    (finalize { st5 with status := .idle, statusMessage := "" }, effs1)
  else if !env.respOk then
    -- throw, caught at lines 962-972 (3 s timer then resets to idle)
    (finalize { st5 with errorMessage := "Solution generation failed",
                         status := .error, statusMessage := "" }, effs1)
  else
    -- suspension: `await solutionResponse.json()` (line 847)
    let st6 := applyMutState st5 env.mutDuringJson
    let sig6 := applyMutSig st5 env.mutDuringJson false
    if env.imageUrl == none || sig6 then
      -- lines 860-866: no image means no help needed; clean idle
      (finalize { st6 with status := .idle, statusMessage := "" }, effs1)
    else genLoadImage st6 mode viewportBounds env effs1

/-- Fingerprint stage of `generateSolution` (page.tsx lines 805-841):
the base64 read, the fingerprint comparison and store (which happen
before the next abort check), and the status update before the
generation call is issued. -/
def genCompareFingerprint (st1 : BoardState) (sig1 : Bool) (base64 : String)
    (mode : AssistMode) (opts : GenOptions) (viewportBounds : Bounds)
    (env : GenEnv) (effs0 : List Effect) : BoardState × List Effect :=
  let st2 := applyMutState st1 env.mutDuringRead
  let sig2 := applyMutSig st1 env.mutDuringRead sig1
  if !opts.force && st2.lastCanvasImage == some base64 then
    -- lines 813-818: unchanged canvas, abort silently back to idle
    (finalize { st2 with status := .idle, statusMessage := "" }, effs0)
  else
    let st3 : BoardState := { st2 with lastCanvasImage := some base64 }
    if sig2 then (finalize st3, effs0)  -- line 821
    else
      let st4 : BoardState :=
        { st3 with status := .generating,
                   statusMessage := getStatusMessage mode .generating }
      genHandleResponse st4 mode viewportBounds env
        (effs0 ++ [Effect.fetchSolution mode opts.promptOverride])

/-- Capture stage of `generateSolution` (page.tsx lines 783-809): filter
out the pending generated images, export the raster (null blob aborts
silently), and check the abort signal. -/
def genCapture (st0 : BoardState) (mode : AssistMode) (opts : GenOptions)
    (env : GenEnv) : BoardState × List Effect :=
  let viewportBounds := st0.viewport
  let toCapture := shapesToCapture st0
  if toCapture.isEmpty then
    -- lines 790-793: reset the flag and return silently
    (finalize st0, [])
  else
    -- suspension: `await editor.toImage` (lines 795-801)
    let effs0 := [Effect.capture (toCapture.map (fun s => s.id))]
    let st1 := applyMutState st0 env.mutDuringToImage
    let sig1 := applyMutSig st0 env.mutDuringToImage false
    match env.captureFn toCapture viewportBounds with
    | none => (finalize st1, effs0)  -- `if (!blob ...) return`
    | some base64 =>
      if sig1 then (finalize st1, effs0)  -- `(... || signal.aborted) return`
      else genCompareFingerprint st1 sig1 base64 mode opts viewportBounds env effs0

/-- One run of `generateSolution` (page.tsx lines 759-977): the entry
guard, the check-and-set of the in-flight flag, and the staged body
above.  Returns the board state at the moment the async function
completes together with the trace of external effects. -/
def generateSolution (st : BoardState) (opts : GenOptions) (env : GenEnv) :
    BoardState × List Effect :=
  -- entry guard (line 765)
  if st.isProcessing || st.isVoiceSessionActive then (st, [])
  else
    let mode := opts.modeOverride.getD st.assistanceMode
    if mode = AssistMode.off then (st, [])
    else if st.shapes.isEmpty then (st, [])
    else
      -- check-and-set of the in-flight flag, new AbortController
      genCapture { st with isProcessing := true, hasAbortController := true } mode opts env

/-- `editor.updateShape` restricted to the partial updates the handlers
send: apply the update to the shape with the given id. -/
def updateShapeBy (shapes : List TLShape) (shapeId : Nat) (f : TLShape → TLShape) :
    List TLShape :=
  shapes.map (fun s => if s.id = shapeId then f s else s)

/-- `editor.deleteShape`: tldraw refuses to delete a locked shape, so
only an unlocked shape with the given id is removed (which is why the
reject handler unlocks first). -/
def deleteShapeById (shapes : List TLShape) (shapeId : Nat) : List TLShape :=
  shapes.filter (fun s => !(s.id = shapeId && !s.isLocked))

/-- `handleAccept` (page.tsx lines 1019-1050): set the suppression flag,
unlock the shape while raising its opacity to 1, immediately re-lock it,
and drop it from the pending list.  The 100 ms timer that clears the
suppression flag is still pending in the returned state. -/
def handleAccept (st : BoardState) (shapeId : Nat) : BoardState × List Effect :=
  let st1 : BoardState := { st with isUpdatingImage := true }
  let st2 : BoardState :=
    { st1 with shapes := updateShapeBy st1.shapes shapeId
                 (fun s => { s with isLocked := false, opacity := 1 }) }
  let st3 : BoardState :=
    { st2 with shapes := updateShapeBy st2.shapes shapeId
                 (fun s => { s with isLocked := true }) }
  let st4 : BoardState :=
    { st3 with pendingImageIds := st3.pendingImageIds.filter (fun i => i ≠ shapeId) }
  (st4, [Effect.updateShape shapeId st1.isUpdatingImage,
         Effect.updateShape shapeId st2.isUpdatingImage])

/-- `handleReject` (page.tsx lines 1052-1077): set the suppression flag,
unlock the shape, delete it, and drop it from the pending list. -/
def handleReject (st : BoardState) (shapeId : Nat) : BoardState × List Effect :=
  let st1 : BoardState := { st with isUpdatingImage := true }
  let st2 : BoardState :=
    { st1 with shapes := updateShapeBy st1.shapes shapeId
                 (fun s => { s with isLocked := false }) }
  let st3 : BoardState := { st2 with shapes := deleteShapeById st2.shapes shapeId }
  let st4 : BoardState :=
    { st3 with pendingImageIds := st3.pendingImageIds.filter (fun i => i ≠ shapeId) }
  (st4, [Effect.updateShape shapeId st1.isUpdatingImage,
         Effect.deleteShape shapeId st2.isUpdatingImage])

/-! ## The activity debouncer (`hooks/useDebounceActivity.ts`) -/

/-- The debounce countdown: `timeoutRef.current`, as the absolute
deadline of the pending timer, or `none` when no timer is live. -/
structure DebounceState where
  timeout : Option Nat
deriving DecidableEq, Repr

/-- `resetTimer`: clear any existing timer, then schedule the callback
`delay` from now. -/
def resetTimer (now delay : Nat) : DebounceState :=
  { timeout := some (now + delay) }

/-- `handleHistoryChange`: a document-mutation event resets the countdown
unless the suppression flag (`shouldIgnoreRef.current`) is set, in which
case the event is ignored outright. -/
def handleHistoryChange (shouldIgnore : Bool) (d : DebounceState)
    (now delay : Nat) : DebounceState :=
  if shouldIgnore then d else resetTimer now delay

/-! ## The voice tool bridge (`VoiceAgentControls` in page.tsx) -/

/-- Messages the tool dispatcher sends over the realtime data channel:
a `conversation.item.create` carrying a `function_call_output` for a
call id (with either a success or an error payload), or a
`response.create` trigger. -/
inductive DcMsg where
  | functionCallOutput (callId : String) (isError : Bool)
  | responseCreate
deriving DecidableEq, Repr

/-- The JSON arguments of a tool call once parsed. -/
structure ToolArgs where
  mode : Option String := none
  focus : Option String := none
  instructions : Option String := none
deriving DecidableEq, Repr

/-- Mode validation in the `draw_on_canvas` branch (page.tsx lines
314-319): any value outside the closed set falls back to `suggest`. -/
def coerceMode (m : Option String) : AssistMode :=
  match m with
  | some "feedback" => AssistMode.feedback
  | some "suggest" => AssistMode.suggest
  | some "answer" => AssistMode.answer
  | _ => AssistMode.suggest

/-- `captureCanvasImage` of `VoiceAgentControls` (page.tsx lines
226-248): null when the canvas is empty or the export yields no blob,
otherwise the base64 raster of all current shapes over the viewport. -/
def captureCanvasImage (st : BoardState) (env : GenEnv) : Option String :=
  if st.shapes.isEmpty then none
  else env.captureFn st.shapes st.viewport

/-- Collaborator responses for the `analyze_workspace` tool. -/
structure ToolEnv where
  /-- whether POST `/api/voice/analyze-workspace` returns ok. -/
  analyzeOk : Bool
  /-- `data.analysis` of the response. -/
  analysisText : String
deriving DecidableEq, Repr

/-- The `onSolveWithPrompt` prop handed to `VoiceAgentControls`
(page.tsx lines 1249-1255): run the generation pipeline with the spoken
mode, the spoken instructions as prompt override, and `force: true`.

The data-channel message handler chain is installed once inside
`startSession`, in a render that precedes `onSessionChange(true)`, so
the `generateSolution` closure it captures still sees
`isVoiceSessionActive = false`; the board state a dispatched tool call
reaches the pipeline with therefore carries that captured value. -/
def onSolveWithPrompt (st : BoardState) (mode : AssistMode)
    (instructions : Option String) (env : GenEnv) : BoardState × List Effect :=
  generateSolution st
    { modeOverride := some mode, promptOverride := instructions, force := true } env

/-- `handleFunctionCall` (page.tsx lines 250-377): dispatch one tool
invocation received over the data channel.  `parsedArgs = none` models
`JSON.parse` throwing on the streamed argument string; in that case the
handler only sets an error status and returns.  Returns the data-channel
messages sent, the resulting board state and the pipeline effects. -/
def handleFunctionCall (dcPresent : Bool) (name : String)
    (parsedArgs : Option ToolArgs) (callId : String) (st : BoardState)
    (env : GenEnv) (tenv : ToolEnv) : List DcMsg × BoardState × List Effect :=
  if !dcPresent then ([], st, [])
  else
    match parsedArgs with
    | none => ([], st, [])  -- lines 255-261: `setErrorStatus(...); return;`
    | some args =>
      if name = "analyze_workspace" then
        match captureCanvasImage st env with
        | none =>
          -- `throw new Error("Canvas is empty...")`, caught at lines 346-374
          ([DcMsg.functionCallOutput callId true, DcMsg.responseCreate], st, [])
        | some _image =>
          if !tenv.analyzeOk then
            -- `throw new Error("Workspace analysis request failed")`, caught
            ([DcMsg.functionCallOutput callId true, DcMsg.responseCreate], st, [])
          else
            ([DcMsg.functionCallOutput callId false, DcMsg.responseCreate], st, [])
      else if name = "draw_on_canvas" then
        let mode := coerceMode args.mode
        let r := onSolveWithPrompt st mode args.instructions env
        ([DcMsg.functionCallOutput callId false, DcMsg.responseCreate], r.1, r.2)
      else
        ([], st, [])  -- unrecognized tool name: neither branch runs

/-! ## Concrete fixtures used by the witnesses -/

/-- A plain user-drawn shape. -/
def testShape (i : Nat) : TLShape :=
  { id := i, x := 0, y := 0, w := 10, h := 10, opacity := 1, isLocked := false }

/-- A board view in answer mode with one user shape and an 800x600
viewport at (100, 50). -/
def baseState : BoardState :=
  { shapes := [testShape 1]
    assets := []
    pendingImageIds := []
    status := .idle
    statusMessage := ""
    errorMessage := ""
    isProcessing := false
    hasAbortController := false
    lastCanvasImage := none
    isUpdatingImage := false
    isVoiceSessionActive := false
    assistanceMode := .answer
    viewport := { x := 100, y := 50, width := 800, height := 600 } }

/-- An environment in which every collaborator call succeeds: the raster
export encodes the captured shape ids, the generation service returns a
1600x400 image, and no mutation event fires during the run. -/
def happyEnv : GenEnv :=
  { captureFn := fun shapes _ => some (toString (shapes.map (·.id)))
    mutDuringToImage := false
    mutDuringRead := false
    mutDuringFetch := false
    mutDuringJson := false
    mutDuringLoad := false
    respOk := true
    imageUrl := some "data:image/png;base64,gen"
    textContent := ""
    imgLoadOk := true
    imgW := 1600
    imgH := 400
    newAssetId := 100
    newShapeId := 101 }

/-- A board view that is busy: the in-flight flag is set. -/
def busyState : BoardState := { baseState with isProcessing := true }

/-- A board view with one user shape and one pending generated overlay
(shape id 7, ghosted and locked). -/
def pendingState : BoardState :=
  { baseState with
      shapes := [testShape 1, { testShape 7 with opacity := 3 / 10, isLocked := true }]
      pendingImageIds := [7] }

/-- A voice tool environment in which the analysis endpoint succeeds. -/
def testToolEnv : ToolEnv := { analyzeOk := true, analysisText := "Looks good" }

/-- Disjunction of the five mutation-event flags: some user document
mutation fires during the run. -/
def allMutFlags (env : GenEnv) : Bool :=
  env.mutDuringToImage || env.mutDuringRead || env.mutDuringFetch ||
    env.mutDuringJson || env.mutDuringLoad

/-! ## The properties the claims assert -/

/-- C1 conclusion: a trigger while busy returns immediately, with the
board state unchanged and no capture, fetch or canvas-mutation effect. -/
def SingleFlightNoOp (st : BoardState) (opts : GenOptions) (env : GenEnv) : Prop :=
  generateSolution st opts env = (st, [])

/-- C2 conclusion, for a run whose capture yields `b`: if `b` equals the
stored fingerprint the run returns to idle having issued only the
capture (no AI call, fingerprint unchanged); if it differs, the new
fingerprint is stored and the generation call is issued.  Two captures
of an unchanged canvas (same shapes, same pending set, same viewport;
the export options are fixed at scale 1, padding 0, background on)
yield identical fingerprints. -/
def FingerprintGate (st : BoardState) (opts : GenOptions) (env : GenEnv)
    (b : String) : Prop :=
  (st.lastCanvasImage = some b →
    generateSolution st opts env =
      ({ st with status := .idle, statusMessage := "",
                 isProcessing := false, hasAbortController := false },
       [Effect.capture ((shapesToCapture st).map (fun s => s.id))])) ∧
  (st.lastCanvasImage ≠ some b →
    (generateSolution st opts env).1.lastCanvasImage = some b ∧
    Effect.fetchSolution (opts.modeOverride.getD st.assistanceMode)
        opts.promptOverride ∈ (generateSolution st opts env).2) ∧
  (∀ st' : BoardState, st'.shapes = st.shapes →
    st'.pendingImageIds = st.pendingImageIds → st'.viewport = st.viewport →
    env.captureFn (shapesToCapture st') st'.viewport =
      env.captureFn (shapesToCapture st) st.viewport)

/-- C3 conclusion: a user mutation event while a request is in flight
calls `abort()` on the shared signal, resets the status to idle and
clears the in-flight flag (so a fresh request may start); and whenever
some mutation event fires during a run, the run materializes nothing
(no asset and no shape is created after the abort). -/
def CancellationCorrect (st : BoardState) (opts : GenOptions) (env : GenEnv) : Prop :=
  (st.hasAbortController = true →
    mutationAborts st = true ∧
    handleEditorChange st =
      { st with hasAbortController := false, status := .idle,
                statusMessage := "", isProcessing := false }) ∧
  ((env.mutDuringToImage || env.mutDuringRead || env.mutDuringFetch ||
      env.mutDuringJson || env.mutDuringLoad) = true →
    ∀ e ∈ (generateSolution st opts env).2, e.isCreation = false)

/-- C4 conclusion: when the generation service responds ok but with a
null image URL, the run ends exactly in the idle state (not error) with
the pending list untouched and nothing materialized. -/
def NoImageEndsIdle (st : BoardState) (opts : GenOptions) (env : GenEnv)
    (b : String) : Prop :=
  generateSolution st opts env =
    ({ st with lastCanvasImage := some b, status := .idle, statusMessage := "",
               isProcessing := false, hasAbortController := false },
     [Effect.capture ((shapesToCapture st).map (fun s => s.id)),
      Effect.fetchSolution (opts.modeOverride.getD st.assistanceMode)
        opts.promptOverride]) ∧
  (generateSolution st opts env).1.status = Status.idle ∧
  (generateSolution st opts env).1.status ≠ Status.error ∧
  (generateSolution st opts env).1.pendingImageIds = st.pendingImageIds ∧
  ∀ e ∈ (generateSolution st opts env).2, e.isCreation = false

/-- C5 conclusion: accept leaves one fewer pending id, and the accepted
shape ends fully opaque and still locked; reject leaves one fewer
pending id and the shape is gone from the canvas. -/
def AcceptRejectInvariant (st : BoardState) (shapeId : Nat) : Prop :=
  ((handleAccept st shapeId).1.pendingImageIds.length + 1 =
    st.pendingImageIds.length) ∧
  (∀ s ∈ (handleAccept st shapeId).1.shapes, s.id = shapeId →
    s.opacity = 1 ∧ s.isLocked = true) ∧
  (∃ s ∈ (handleAccept st shapeId).1.shapes, s.id = shapeId) ∧
  ((handleReject st shapeId).1.pendingImageIds.length + 1 =
    st.pendingImageIds.length) ∧
  (∀ s ∈ (handleReject st shapeId).1.shapes, s.id ≠ shapeId)

/-- C7 conclusion: the dispatched `draw_on_canvas` tool call reports
success over the data channel and the generation pipeline actually ran:
the canvas was captured, the generation service was called with the
spoken mode and instructions (forced, so the fingerprint gate is
bypassed), and the result was materialized onto the canvas. -/
def DrawOnCanvasRunsPipeline (st : BoardState) (args : ToolArgs) (callId : String)
    (env : GenEnv) (tenv : ToolEnv) : Prop :=
  (handleFunctionCall true "draw_on_canvas" (some args) callId st env tenv).1 =
    [DcMsg.functionCallOutput callId false, DcMsg.responseCreate] ∧
  Effect.capture ((shapesToCapture st).map (fun s => s.id)) ∈
    (handleFunctionCall true "draw_on_canvas" (some args) callId st env tenv).2.2 ∧
  Effect.fetchSolution (coerceMode args.mode) args.instructions ∈
    (handleFunctionCall true "draw_on_canvas" (some args) callId st env tenv).2.2 ∧
  Effect.createShape env.newShapeId true ∈
    (handleFunctionCall true "draw_on_canvas" (some args) callId st env tenv).2.2 ∧
  (handleFunctionCall true "draw_on_canvas" (some args) callId st env tenv).2.1.shapes =
    st.shapes ++ [materializedShape st.viewport env.imgW env.imgH env.newShapeId
      (decide (coerceMode args.mode = AssistMode.feedback))]

/-- C8 (amended) conclusion: the dispatcher answers the tool call with a
`function_call_output` for the call id immediately followed by a
`response.create` trigger (with either a success or an error payload). -/
def ToolReplyProtocol (name : String) (args : ToolArgs) (callId : String)
    (st : BoardState) (env : GenEnv) (tenv : ToolEnv) : Prop :=
  ∃ isErr : Bool,
    (handleFunctionCall true name (some args) callId st env tenv).1 =
      [DcMsg.functionCallOutput callId isErr, DcMsg.responseCreate]

/-- C9 conclusion: the materialized shape is scaled by
`min(viewportWidth / imageWidth, viewportHeight / imageHeight)` and
centered in the viewport; for a 800x600 viewport and a 1600x400 image
the scale is 1/2, the shape is 800x200, and it sits at
`(viewportX + 0, viewportY + 200)`. -/
def ScaleToFitCorrect (st : BoardState) (opts : GenOptions) (env : GenEnv) : Prop :=
  (generateSolution st opts env).1.shapes =
    st.shapes ++ [materializedShape st.viewport env.imgW env.imgH env.newShapeId
      (decide (opts.modeOverride.getD st.assistanceMode = AssistMode.feedback))] ∧
  (∀ (vx vy : ℚ) (sid : Nat) (fb : Bool),
    fitScale { x := vx, y := vy, width := 800, height := 600 } 1600 400 = 1 / 2 ∧
    (materializedShape { x := vx, y := vy, width := 800, height := 600 }
      1600 400 sid fb).w = 800 ∧
    (materializedShape { x := vx, y := vy, width := 800, height := 600 }
      1600 400 sid fb).h = 200 ∧
    (materializedShape { x := vx, y := vy, width := 800, height := 600 }
      1600 400 sid fb).x = vx + 0 ∧
    (materializedShape { x := vx, y := vy, width := 800, height := 600 }
      1600 400 sid fb).y = vy + 200)

/-- C10 conclusion, for a non-forced run whose capture `b` differs from
the stored fingerprint but whose generation call fails (or is
cancelled): the fingerprint is left overwritten with `b`, so a retry on
the byte-identical canvas short-circuits to idle without any AI call. -/
def FingerprintNotRestored (st : BoardState) (opts : GenOptions) (env : GenEnv)
    (b : String) : Prop :=
  ((generateSolution st opts env).1.lastCanvasImage = some b ∧
   (generateSolution st opts env).1.status = Status.error ∧
   (generateSolution st opts env).1.shapes = st.shapes ∧
   (generateSolution st opts env).1.pendingImageIds = st.pendingImageIds) ∧
  (generateSolution st opts { env with mutDuringFetch := true }).1.lastCanvasImage =
    some b ∧
  (generateSolution (generateSolution st opts env).1 opts env).1.status =
    Status.idle ∧
  (∀ (m : AssistMode) (p : Option String), Effect.fetchSolution m p ∉
    (generateSolution (generateSolution st opts env).1 opts env).2)

/-! ## Helper lemmas -/

theorem handleEditorChange_lastCanvasImage (st : BoardState) :
    (handleEditorChange st).lastCanvasImage = st.lastCanvasImage := by
  unfold handleEditorChange
  split_ifs <;> rfl

theorem applyMutState_lastCanvasImage (st : BoardState) (ev : Bool) :
    (applyMutState st ev).lastCanvasImage = st.lastCanvasImage := by
  unfold applyMutState
  split_ifs <;> simp [handleEditorChange_lastCanvasImage]

theorem coerceMode_ne_off (m : Option String) : ¬ coerceMode m = AssistMode.off := by
  unfold coerceMode
  split <;> simp

theorem genMaterialize_snd (st7 : BoardState) (mode : AssistMode) (v : Bounds)
    (env : GenEnv) (effs : List Effect) :
    (genMaterialize st7 mode v env effs).2 =
      effs ++ [Effect.createAsset env.newAssetId true,
               Effect.createShape env.newShapeId true] := rfl

theorem genMaterialize_eq (st7 : BoardState) (mode : AssistMode) (v : Bounds)
    (env : GenEnv) (effs : List Effect) :
    genMaterialize st7 mode v env effs =
      ({ st7 with
           assets := st7.assets ++ [{ id := env.newAssetId, w := env.imgW,
                                      h := env.imgH, src := env.imageUrl.getD "" }],
           shapes := st7.shapes ++ [materializedShape v env.imgW env.imgH env.newShapeId
             (decide (mode = AssistMode.feedback))],
           pendingImageIds :=
             if mode = AssistMode.feedback then st7.pendingImageIds
             else st7.pendingImageIds ++ [env.newShapeId],
           status := .success, statusMessage := getStatusMessage mode .success,
           isUpdatingImage := true, isProcessing := false,
           hasAbortController := false },
       effs ++ [Effect.createAsset env.newAssetId true,
                Effect.createShape env.newShapeId true]) := by
  by_cases hfb : mode = AssistMode.feedback <;>
    simp [genMaterialize, hfb, finalize]

theorem genMaterialize_lastCanvasImage (st7 : BoardState) (mode : AssistMode)
    (v : Bounds) (env : GenEnv) (effs : List Effect) :
    (genMaterialize st7 mode v env effs).1.lastCanvasImage = st7.lastCanvasImage := by
  by_cases hfb : mode = AssistMode.feedback <;> simp [genMaterialize_eq, hfb]

theorem genLoadImage_lastCanvasImage (st6 : BoardState) (mode : AssistMode)
    (v : Bounds) (env : GenEnv) (effs : List Effect) :
    (genLoadImage st6 mode v env effs).1.lastCanvasImage = st6.lastCanvasImage := by
  simp only [genLoadImage]
  split_ifs <;>
    simp [finalize, applyMutState_lastCanvasImage, genMaterialize_lastCanvasImage]

theorem genLoadImage_mem (st6 : BoardState) (mode : AssistMode) (v : Bounds)
    (env : GenEnv) (effs : List Effect) (e : Effect) (he : e ∈ effs) :
    e ∈ (genLoadImage st6 mode v env effs).2 := by
  simp only [genLoadImage]
  split_ifs <;> simp [genMaterialize_snd, he]

theorem genHandleResponse_lastCanvasImage (st4 : BoardState) (mode : AssistMode)
    (v : Bounds) (env : GenEnv) (effs1 : List Effect) :
    (genHandleResponse st4 mode v env effs1).1.lastCanvasImage =
      st4.lastCanvasImage := by
  simp only [genHandleResponse]
  split_ifs <;>
    simp [finalize, applyMutState_lastCanvasImage, genLoadImage_lastCanvasImage]

theorem genHandleResponse_mem (st4 : BoardState) (mode : AssistMode) (v : Bounds)
    (env : GenEnv) (effs1 : List Effect) (e : Effect) (he : e ∈ effs1) :
    e ∈ (genHandleResponse st4 mode v env effs1).2 := by
  simp only [genHandleResponse]
  split_ifs <;> simp [genLoadImage_mem, he]

theorem filter_ne_of_not_mem (l : List Nat) (a : Nat) (h : a ∉ l) :
    l.filter (fun i => i ≠ a) = l := by
  apply List.filter_eq_self.mpr
  intro x hx
  simp only [decide_eq_true_eq]
  exact fun hxa => h (hxa ▸ hx)

theorem length_filter_ne_of_count (l : List Nat) (a : Nat) (h : l.count a = 1) :
    (l.filter (fun i => i ≠ a)).length + 1 = l.length := by
  induction l with
  | nil => simp at h
  | cons x xs ih =>
    by_cases hx : x = a
    · subst hx
      rw [List.count_cons_self] at h
      have h0 : xs.count x = 0 := by omega
      have hnm : x ∉ xs := List.count_eq_zero.mp h0
      rw [show (x :: xs).filter (fun i => i ≠ x) = xs.filter (fun i => i ≠ x) by simp]
      rw [filter_ne_of_not_mem xs x hnm]
      simp
    · rw [List.count_cons_of_ne (fun hax => hx hax.symm)] at h
      have hpos : (x :: xs).filter (fun i => i ≠ a) = x :: xs.filter (fun i => i ≠ a) := by
        simp [hx]
      rw [hpos]
      have hxs := ih h
      simp only [List.length_cons]
      omega

theorem genLoadImage_abort (st6 : BoardState) (mode : AssistMode) (v : Bounds)
    (env : GenEnv) (effs : List Effect)
    (hsup : st6.isUpdatingImage = false) (hctl : st6.hasAbortController = true)
    (hflag : env.mutDuringLoad = true) :
    ∀ e ∈ (genLoadImage st6 mode v env effs).2, e ∈ effs ∨ e.isCreation = false := by
  intro e he
  unfold genLoadImage at he
  simp only [applyMutSig, applyMutState, mutationAborts, hsup, hctl, hflag,
    Bool.not_false, Bool.and_true, Bool.true_and, Bool.false_or, Bool.or_true,
    if_true] at he
  split at he <;>
    (simp at he; rcases he with he | rfl
     · exact Or.inl he
     · exact Or.inr rfl)



theorem genHandleResponse_abort (st4 : BoardState) (mode : AssistMode) (v : Bounds)
    (env : GenEnv) (effs1 : List Effect)
    (hsup : st4.isUpdatingImage = false) (hctl : st4.hasAbortController = true)
    (hflag : (env.mutDuringFetch || env.mutDuringJson || env.mutDuringLoad) = true) :
    ∀ e ∈ (genHandleResponse st4 mode v env effs1).2,
      e ∈ effs1 ∨ e.isCreation = false := by
  intro e he
  unfold genHandleResponse at he
  by_cases hf : env.mutDuringFetch = true
  · simp only [applyMutSig, applyMutState, mutationAborts, hsup, hctl, hf,
      Bool.not_false, Bool.and_true, Bool.true_and, Bool.false_or, Bool.or_true,
      if_true] at he
    exact Or.inl he
  · rw [Bool.not_eq_true] at hf
    simp only [applyMutSig, applyMutState, mutationAborts, hsup, hctl, hf,
      Bool.not_false, Bool.and_true, Bool.true_and, Bool.false_or, Bool.false_and,
      Bool.or_false, if_false, Bool.false_eq_true] at he
    by_cases hr : env.respOk = true
    · simp only [hr, Bool.not_true, Bool.false_eq_true, if_false] at he
      by_cases hj : env.mutDuringJson = true
      · simp only [hj, Bool.and_true, Bool.true_and, Bool.or_true, if_true] at he
        exact Or.inl he
      · rw [Bool.not_eq_true] at hj
        simp only [hj, Bool.false_and, Bool.and_false, Bool.or_false,
          Bool.false_eq_true, if_false] at he
        split at he
        · exact Or.inl he
        · have hl : env.mutDuringLoad = true := by
            rw [hf, hj] at hflag
            simpa using hflag
          exact genLoadImage_abort _ mode v env effs1 hsup hctl hl e he
    · rw [Bool.not_eq_true] at hr
      simp only [hr, Bool.not_false, if_true] at he
      exact Or.inl he



theorem genCompareFingerprint_abort (st1 : BoardState) (sig1 : Bool) (b : String)
    (mode : AssistMode) (opts : GenOptions) (v : Bounds) (env : GenEnv)
    (effs0 : List Effect)
    (hsup : st1.isUpdatingImage = false) (hctl : st1.hasAbortController = true)
    (hsig1 : sig1 = false)
    (hflag : (env.mutDuringRead || env.mutDuringFetch || env.mutDuringJson ||
              env.mutDuringLoad) = true) :
    ∀ e ∈ (genCompareFingerprint st1 sig1 b mode opts v env effs0).2,
      e ∈ effs0 ∨ e.isCreation = false := by
  intro e he
  unfold genCompareFingerprint at he
  by_cases hr : env.mutDuringRead = true
  · simp only [applyMutSig, applyMutState, mutationAborts, hsup, hctl, hr, hsig1,
      Bool.not_false, Bool.and_true, Bool.true_and, Bool.false_or, Bool.or_true,
      if_true] at he
    split at he
    · exact Or.inl he
    · exact Or.inl he
  · rw [Bool.not_eq_true] at hr
    simp only [applyMutSig, applyMutState, mutationAborts, hsup, hctl, hr, hsig1,
      Bool.not_false, Bool.and_true, Bool.true_and, Bool.false_or, Bool.false_and,
      Bool.or_false, if_false, Bool.false_eq_true] at he
    split at he
    · exact Or.inl he
    · have hrest : (env.mutDuringFetch || env.mutDuringJson || env.mutDuringLoad) = true := by
        rw [hr] at hflag
        simpa using hflag
      rcases genHandleResponse_abort _ mode v env _ rfl rfl hrest e he with h | h
      · rcases List.mem_append.mp h with h2 | h2
        · exact Or.inl h2
        · simp at h2
          subst h2
          exact Or.inr rfl
      · exact Or.inr h

theorem genCapture_abort (st0 : BoardState) (mode : AssistMode) (opts : GenOptions)
    (env : GenEnv)
    (hsup : st0.isUpdatingImage = false) (hctl : st0.hasAbortController = true)
    (hflag : allMutFlags env = true) :
    ∀ e ∈ (genCapture st0 mode opts env).2, e.isCreation = false := by
  intro e he
  simp only [genCapture] at he
  split at he
  · simp at he
  by_cases ht : env.mutDuringToImage = true
  · simp only [applyMutSig, applyMutState, mutationAborts, hsup, hctl, ht,
      Bool.not_false, Bool.and_true, Bool.true_and, Bool.false_or, Bool.or_true,
      if_true] at he
    split at he
    · simp at he
      subst he
      rfl
    · simp at he
      subst he
      rfl
  · rw [Bool.not_eq_true] at ht
    simp only [applyMutSig, applyMutState, mutationAborts, hsup, hctl, ht,
      Bool.not_false, Bool.and_true, Bool.true_and, Bool.false_or, Bool.false_and,
      Bool.or_false, if_false, Bool.false_eq_true] at he
    split at he
    · simp at he
      subst he
      rfl
    · have hrest : (env.mutDuringRead || env.mutDuringFetch || env.mutDuringJson ||
          env.mutDuringLoad) = true := by
        unfold allMutFlags at hflag
        rw [ht] at hflag
        simpa using hflag
      rcases genCompareFingerprint_abort _ _ _ mode opts _ env _ hsup hctl rfl hrest e he with h | h
      · simp at h
        subst h
        rfl
      · exact h

theorem generateSolution_abort_no_creation (st : BoardState) (opts : GenOptions)
    (env : GenEnv)
    (hsup : st.isUpdatingImage = false)
    (hflag : allMutFlags env = true) :
    ∀ e ∈ (generateSolution st opts env).2, e.isCreation = false := by
  intro e he
  simp only [generateSolution] at he
  split at he
  · simp at he
  split at he
  · simp at he
  split at he
  · simp at he
  refine genCapture_abort _ _ opts env ?_ ?_ hflag e he
  · exact hsup
  · rfl



theorem genLoadImage_supp (st6 : BoardState) (mode : AssistMode) (v : Bounds)
    (env : GenEnv) (effs : List Effect) :
    ∀ e ∈ (genLoadImage st6 mode v env effs).2, e.isCanvasMutation = true →
      e ∈ effs ∨ e.suppressedFlag = true := by
  intro e he hmut
  simp only [genLoadImage] at he
  split at he
  · split at he <;>
      (simp at he
       rcases he with h | h
       · exact Or.inl h
       · subst h; simp [Effect.isCanvasMutation] at hmut)
  · split at he
    · simp at he
      rcases he with h | h
      · exact Or.inl h
      · subst h; simp [Effect.isCanvasMutation] at hmut
    · rw [genMaterialize_snd] at he
      simp at he
      rcases he with h | h | h | h
      · exact Or.inl h
      · subst h; simp [Effect.isCanvasMutation] at hmut
      · subst h; exact Or.inr rfl
      · subst h; exact Or.inr rfl

theorem genHandleResponse_supp (st4 : BoardState) (mode : AssistMode) (v : Bounds)
    (env : GenEnv) (effs1 : List Effect) :
    ∀ e ∈ (genHandleResponse st4 mode v env effs1).2, e.isCanvasMutation = true →
      e ∈ effs1 ∨ e.suppressedFlag = true := by
  intro e he hmut
  simp only [genHandleResponse] at he
  split at he
  · exact Or.inl he
  split at he
  · exact Or.inl he
  split at he
  · exact Or.inl he
  · exact genLoadImage_supp _ mode v env effs1 e he hmut

theorem genCompareFingerprint_supp (st1 : BoardState) (sig1 : Bool) (b : String)
    (mode : AssistMode) (opts : GenOptions) (v : Bounds) (env : GenEnv)
    (effs0 : List Effect) :
    ∀ e ∈ (genCompareFingerprint st1 sig1 b mode opts v env effs0).2,
      e.isCanvasMutation = true → e ∈ effs0 ∨ e.suppressedFlag = true := by
  intro e he hmut
  simp only [genCompareFingerprint] at he
  split at he
  · exact Or.inl he
  split at he
  · exact Or.inl he
  · rcases genHandleResponse_supp _ mode v env _ e he hmut with h | h
    · rcases List.mem_append.mp h with h2 | h2
      · exact Or.inl h2
      · simp at h2
        subst h2
        simp [Effect.isCanvasMutation] at hmut
    · exact Or.inr h

theorem genCapture_supp (st0 : BoardState) (mode : AssistMode) (opts : GenOptions)
    (env : GenEnv) :
    ∀ e ∈ (genCapture st0 mode opts env).2, e.isCanvasMutation = true →
      e.suppressedFlag = true := by
  intro e he hmut
  simp only [genCapture] at he
  split at he
  · simp at he
  split at he
  · simp at he
    subst he
    simp [Effect.isCanvasMutation] at hmut
  split at he
  · simp at he
    subst he
    simp [Effect.isCanvasMutation] at hmut
  · rcases genCompareFingerprint_supp _ _ _ mode opts _ env _ e he hmut with h | h
    · simp at h
      subst h
      simp [Effect.isCanvasMutation] at hmut
    · exact h

theorem generateSolution_supp (st : BoardState) (opts : GenOptions) (env : GenEnv) :
    ∀ e ∈ (generateSolution st opts env).2, e.isCanvasMutation = true →
      e.suppressedFlag = true := by
  intro e he hmut
  simp only [generateSolution] at he
  split at he
  · simp at he
  split at he
  · simp at he
  split at he
  · simp at he
  · exact genCapture_supp _ _ opts env e he hmut



theorem generateSolution_entry (st : BoardState) (opts : GenOptions) (env : GenEnv)
    (hproc : st.isProcessing = false) (hvoice : st.isVoiceSessionActive = false)
    (hmode : ¬ opts.modeOverride.getD st.assistanceMode = AssistMode.off)
    (hshapes : st.shapes.isEmpty = false) :
    generateSolution st opts env =
      genCapture { st with isProcessing := true, hasAbortController := true }
        (opts.modeOverride.getD st.assistanceMode) opts env := by
  unfold generateSolution
  simp [hproc, hvoice, hmode, hshapes]

theorem genCapture_some (st0 : BoardState) (mode : AssistMode) (opts : GenOptions)
    (env : GenEnv) (b : String)
    (hcapne : (shapesToCapture st0).isEmpty = false)
    (hm1 : env.mutDuringToImage = false)
    (hcap : env.captureFn (shapesToCapture st0) st0.viewport = some b) :
    genCapture st0 mode opts env =
      genCompareFingerprint st0 false b mode opts st0.viewport env
        [Effect.capture ((shapesToCapture st0).map (fun s => s.id))] := by
  unfold genCapture
  simp [hcapne, hm1, hcap, applyMutState, applyMutSig]

theorem genCompareFingerprint_proceed (st1 : BoardState) (b : String)
    (mode : AssistMode) (opts : GenOptions) (v : Bounds) (env : GenEnv)
    (effs0 : List Effect)
    (hm2 : env.mutDuringRead = false)
    (hnosc : (!opts.force && st1.lastCanvasImage == some b) = false) :
    genCompareFingerprint st1 false b mode opts v env effs0 =
      genHandleResponse
        { st1 with lastCanvasImage := some b, status := .generating,
                   statusMessage := getStatusMessage mode .generating }
        mode v env (effs0 ++ [Effect.fetchSolution mode opts.promptOverride]) := by
  unfold genCompareFingerprint
  simp [hm2, hnosc, applyMutState, applyMutSig]

theorem genCompareFingerprint_shortCircuit (st1 : BoardState) (b : String)
    (mode : AssistMode) (opts : GenOptions) (v : Bounds) (env : GenEnv)
    (effs0 : List Effect)
    (hm2 : env.mutDuringRead = false)
    (hsc : (!opts.force && st1.lastCanvasImage == some b) = true) :
    genCompareFingerprint st1 false b mode opts v env effs0 =
      ({ st1 with status := .idle, statusMessage := "",
                  isProcessing := false, hasAbortController := false }, effs0) := by
  unfold genCompareFingerprint
  simp [hm2, hsc, applyMutState, applyMutSig, finalize]

theorem genHandleResponse_proceed (st4 : BoardState) (mode : AssistMode) (v : Bounds)
    (env : GenEnv) (effs1 : List Effect) (u : String)
    (hm3 : env.mutDuringFetch = false) (hm4 : env.mutDuringJson = false)
    (hresp : env.respOk = true) (hurl : env.imageUrl = some u) :
    genHandleResponse st4 mode v env effs1 = genLoadImage st4 mode v env effs1 := by
  unfold genHandleResponse
  simp [hm3, hm4, hresp, hurl, applyMutState, applyMutSig]

theorem genHandleResponse_error (st4 : BoardState) (mode : AssistMode) (v : Bounds)
    (env : GenEnv) (effs1 : List Effect)
    (hm3 : env.mutDuringFetch = false) (hresp : env.respOk = false) :
    genHandleResponse st4 mode v env effs1 =
      ({ st4 with errorMessage := "Solution generation failed", status := .error,
                  statusMessage := "", isProcessing := false,
                  hasAbortController := false }, effs1) := by
  unfold genHandleResponse
  simp [hm3, hresp, applyMutState, applyMutSig, finalize]

theorem genHandleResponse_noImage (st4 : BoardState) (mode : AssistMode) (v : Bounds)
    (env : GenEnv) (effs1 : List Effect)
    (hm3 : env.mutDuringFetch = false) (hm4 : env.mutDuringJson = false)
    (hresp : env.respOk = true) (hurl : env.imageUrl = none) :
    genHandleResponse st4 mode v env effs1 =
      ({ st4 with status := .idle, statusMessage := "",
                  isProcessing := false, hasAbortController := false }, effs1) := by
  unfold genHandleResponse
  simp [hm3, hm4, hresp, hurl, applyMutState, applyMutSig, finalize]

theorem genLoadImage_ok (st6 : BoardState) (mode : AssistMode) (v : Bounds)
    (env : GenEnv) (effs : List Effect)
    (hm5 : env.mutDuringLoad = false) (hload : env.imgLoadOk = true) :
    genLoadImage st6 mode v env effs =
      genMaterialize st6 mode v env (effs ++ [Effect.loadImage]) := by
  unfold genLoadImage
  simp [hm5, hload, applyMutState, applyMutSig]

theorem generateSolution_success_run (st : BoardState) (opts : GenOptions) (env : GenEnv)
    (b u : String)
    (hproc : st.isProcessing = false) (hvoice : st.isVoiceSessionActive = false)
    (hmode : ¬ opts.modeOverride.getD st.assistanceMode = AssistMode.off)
    (hshapes : st.shapes.isEmpty = false)
    (hcapne : (shapesToCapture st).isEmpty = false)
    (hcap : env.captureFn (shapesToCapture st) st.viewport = some b)
    (hm1 : env.mutDuringToImage = false) (hm2 : env.mutDuringRead = false)
    (hm3 : env.mutDuringFetch = false) (hm4 : env.mutDuringJson = false)
    (hm5 : env.mutDuringLoad = false)
    (hnosc : (!opts.force && st.lastCanvasImage == some b) = false)
    (hresp : env.respOk = true) (hurl : env.imageUrl = some u)
    (hload : env.imgLoadOk = true) :
    generateSolution st opts env =
      ({ st with
           shapes := st.shapes ++ [materializedShape st.viewport env.imgW env.imgH
             env.newShapeId
             (decide (opts.modeOverride.getD st.assistanceMode = AssistMode.feedback))],
           assets := st.assets ++ [{ id := env.newAssetId, w := env.imgW,
                                     h := env.imgH, src := env.imageUrl.getD "" }],
           pendingImageIds :=
             if opts.modeOverride.getD st.assistanceMode = AssistMode.feedback then
               st.pendingImageIds
             else st.pendingImageIds ++ [env.newShapeId],
           status := .success,
           statusMessage := getStatusMessage (opts.modeOverride.getD st.assistanceMode)
             .success,
           lastCanvasImage := some b,
           isUpdatingImage := true,
           isProcessing := false,
           hasAbortController := false },
       [Effect.capture ((shapesToCapture st).map (fun s => s.id)),
        Effect.fetchSolution (opts.modeOverride.getD st.assistanceMode)
          opts.promptOverride,
        Effect.loadImage,
        Effect.createAsset env.newAssetId true,
        Effect.createShape env.newShapeId true]) := by
  have hcapne' : (shapesToCapture
      { st with isProcessing := true, hasAbortController := true }).isEmpty = false :=
    hcapne
  have hcap' : env.captureFn (shapesToCapture
        { st with isProcessing := true, hasAbortController := true })
      ({ st with isProcessing := true, hasAbortController := true } : BoardState).viewport
      = some b := hcap
  have hnosc' : (!opts.force &&
      ({ st with isProcessing := true, hasAbortController := true } :
        BoardState).lastCanvasImage == some b) = false := hnosc
  rw [generateSolution_entry st opts env hproc hvoice hmode hshapes]
  rw [genCapture_some _ _ opts env b hcapne' hm1 hcap']
  rw [genCompareFingerprint_proceed _ b _ opts _ env _ hm2 hnosc']
  rw [genHandleResponse_proceed _ _ _ env _ u hm3 hm4 hresp hurl]
  rw [genLoadImage_ok _ _ _ env _ hm5 hload]
  rw [genMaterialize_eq]
  simp [shapesToCapture]



theorem genHandleResponse_abortFetch (st4 : BoardState) (mode : AssistMode) (v : Bounds)
    (env : GenEnv) (effs1 : List Effect)
    (hsup : st4.isUpdatingImage = false) (hctl : st4.hasAbortController = true)
    (hm3 : env.mutDuringFetch = true) :
    genHandleResponse st4 mode v env effs1 =
      ({ st4 with hasAbortController := false, status := .idle,
                  statusMessage := "", isProcessing := false }, effs1) := by
  unfold genHandleResponse
  simp [hm3, hsup, hctl, applyMutState, applyMutSig, mutationAborts,
    handleEditorChange, finalize]

theorem generateSolution_shortCircuit_run (st : BoardState) (opts : GenOptions)
    (env : GenEnv) (b : String)
    (hproc : st.isProcessing = false) (hvoice : st.isVoiceSessionActive = false)
    (hmode : ¬ opts.modeOverride.getD st.assistanceMode = AssistMode.off)
    (hshapes : st.shapes.isEmpty = false)
    (hcapne : (shapesToCapture st).isEmpty = false)
    (hcap : env.captureFn (shapesToCapture st) st.viewport = some b)
    (hm1 : env.mutDuringToImage = false) (hm2 : env.mutDuringRead = false)
    (hforce : opts.force = false)
    (hfp : st.lastCanvasImage = some b) :
    generateSolution st opts env =
      ({ st with status := .idle, statusMessage := "",
                 isProcessing := false, hasAbortController := false },
       [Effect.capture ((shapesToCapture st).map (fun s => s.id))]) := by
  have hcapne' : (shapesToCapture
      { st with isProcessing := true, hasAbortController := true }).isEmpty = false :=
    hcapne
  have hcap' : env.captureFn (shapesToCapture
        { st with isProcessing := true, hasAbortController := true })
      ({ st with isProcessing := true, hasAbortController := true } : BoardState).viewport
      = some b := hcap
  have hsc' : (!opts.force &&
      ({ st with isProcessing := true, hasAbortController := true } :
        BoardState).lastCanvasImage == some b) = true := by
    simp [hforce, hfp]
  rw [generateSolution_entry st opts env hproc hvoice hmode hshapes]
  rw [genCapture_some _ _ opts env b hcapne' hm1 hcap']
  rw [genCompareFingerprint_shortCircuit _ b _ opts _ env _ hm2 hsc']
  simp [shapesToCapture]

theorem generateSolution_error_run (st : BoardState) (opts : GenOptions)
    (env : GenEnv) (b : String)
    (hproc : st.isProcessing = false) (hvoice : st.isVoiceSessionActive = false)
    (hmode : ¬ opts.modeOverride.getD st.assistanceMode = AssistMode.off)
    (hshapes : st.shapes.isEmpty = false)
    (hcapne : (shapesToCapture st).isEmpty = false)
    (hcap : env.captureFn (shapesToCapture st) st.viewport = some b)
    (hm1 : env.mutDuringToImage = false) (hm2 : env.mutDuringRead = false)
    (hm3 : env.mutDuringFetch = false)
    (hnosc : (!opts.force && st.lastCanvasImage == some b) = false)
    (hresp : env.respOk = false) :
    generateSolution st opts env =
      ({ st with lastCanvasImage := some b,
                 errorMessage := "Solution generation failed",
                 status := .error, statusMessage := "",
                 isProcessing := false, hasAbortController := false },
       [Effect.capture ((shapesToCapture st).map (fun s => s.id)),
        Effect.fetchSolution (opts.modeOverride.getD st.assistanceMode)
          opts.promptOverride]) := by
  have hcapne' : (shapesToCapture
      { st with isProcessing := true, hasAbortController := true }).isEmpty = false :=
    hcapne
  have hcap' : env.captureFn (shapesToCapture
        { st with isProcessing := true, hasAbortController := true })
      ({ st with isProcessing := true, hasAbortController := true } : BoardState).viewport
      = some b := hcap
  have hnosc' : (!opts.force &&
      ({ st with isProcessing := true, hasAbortController := true } :
        BoardState).lastCanvasImage == some b) = false := hnosc
  rw [generateSolution_entry st opts env hproc hvoice hmode hshapes]
  rw [genCapture_some _ _ opts env b hcapne' hm1 hcap']
  rw [genCompareFingerprint_proceed _ b _ opts _ env _ hm2 hnosc']
  rw [genHandleResponse_error _ _ _ env _ hm3 hresp]
  simp [shapesToCapture]

theorem generateSolution_noImage_run (st : BoardState) (opts : GenOptions)
    (env : GenEnv) (b : String)
    (hproc : st.isProcessing = false) (hvoice : st.isVoiceSessionActive = false)
    (hmode : ¬ opts.modeOverride.getD st.assistanceMode = AssistMode.off)
    (hshapes : st.shapes.isEmpty = false)
    (hcapne : (shapesToCapture st).isEmpty = false)
    (hcap : env.captureFn (shapesToCapture st) st.viewport = some b)
    (hm1 : env.mutDuringToImage = false) (hm2 : env.mutDuringRead = false)
    (hm3 : env.mutDuringFetch = false) (hm4 : env.mutDuringJson = false)
    (hnosc : (!opts.force && st.lastCanvasImage == some b) = false)
    (hresp : env.respOk = true) (hurl : env.imageUrl = none) :
    generateSolution st opts env =
      ({ st with lastCanvasImage := some b, status := .idle, statusMessage := "",
                 isProcessing := false, hasAbortController := false },
       [Effect.capture ((shapesToCapture st).map (fun s => s.id)),
        Effect.fetchSolution (opts.modeOverride.getD st.assistanceMode)
          opts.promptOverride]) := by
  have hcapne' : (shapesToCapture
      { st with isProcessing := true, hasAbortController := true }).isEmpty = false :=
    hcapne
  have hcap' : env.captureFn (shapesToCapture
        { st with isProcessing := true, hasAbortController := true })
      ({ st with isProcessing := true, hasAbortController := true } : BoardState).viewport
      = some b := hcap
  have hnosc' : (!opts.force &&
      ({ st with isProcessing := true, hasAbortController := true } :
        BoardState).lastCanvasImage == some b) = false := hnosc
  rw [generateSolution_entry st opts env hproc hvoice hmode hshapes]
  rw [genCapture_some _ _ opts env b hcapne' hm1 hcap']
  rw [genCompareFingerprint_proceed _ b _ opts _ env _ hm2 hnosc']
  rw [genHandleResponse_noImage _ _ _ env _ hm3 hm4 hresp hurl]
  simp [shapesToCapture]

theorem generateSolution_cancelFetch_run (st : BoardState) (opts : GenOptions)
    (env : GenEnv) (b : String)
    (hproc : st.isProcessing = false) (hvoice : st.isVoiceSessionActive = false)
    (hmode : ¬ opts.modeOverride.getD st.assistanceMode = AssistMode.off)
    (hshapes : st.shapes.isEmpty = false)
    (hsup : st.isUpdatingImage = false)
    (hcapne : (shapesToCapture st).isEmpty = false)
    (hcap : env.captureFn (shapesToCapture st) st.viewport = some b)
    (hm1 : env.mutDuringToImage = false) (hm2 : env.mutDuringRead = false)
    (hm3 : env.mutDuringFetch = true)
    (hnosc : (!opts.force && st.lastCanvasImage == some b) = false) :
    generateSolution st opts env =
      ({ st with lastCanvasImage := some b, status := .idle, statusMessage := "",
                 isProcessing := false, hasAbortController := false },
       [Effect.capture ((shapesToCapture st).map (fun s => s.id)),
        Effect.fetchSolution (opts.modeOverride.getD st.assistanceMode)
          opts.promptOverride]) := by
  have hcapne' : (shapesToCapture
      { st with isProcessing := true, hasAbortController := true }).isEmpty = false :=
    hcapne
  have hcap' : env.captureFn (shapesToCapture
        { st with isProcessing := true, hasAbortController := true })
      ({ st with isProcessing := true, hasAbortController := true } : BoardState).viewport
      = some b := hcap
  have hnosc' : (!opts.force &&
      ({ st with isProcessing := true, hasAbortController := true } :
        BoardState).lastCanvasImage == some b) = false := hnosc
  rw [generateSolution_entry st opts env hproc hvoice hmode hshapes]
  rw [genCapture_some _ _ opts env b hcapne' hm1 hcap']
  rw [genCompareFingerprint_proceed _ b _ opts _ env _ hm2 hnosc']
  rw [genHandleResponse_abortFetch _ _ _ env _ (by exact hsup) (by rfl) hm3]
  simp [shapesToCapture]
/-! ## The claims -/

/-- C1: while the in-flight flag is set, any call to `generateSolution`
(debounce-fired or voice-forced, with any options) returns immediately:
the board state is unchanged and no capture, fetch or state mutation
happens — so at most one generation request is in flight per canvas
view at any time. -/
theorem c1_single_flight (st : BoardState) (opts : GenOptions) (env : GenEnv)
    (h : st.isProcessing = true) : SingleFlightNoOp st opts env := by
  unfold SingleFlightNoOp generateSolution
  simp only [h, Bool.true_or, if_true]

/-- C1 witness: a concrete busy view. -/
theorem c1_single_flight_witness :
    busyState.isProcessing = true ∧ SingleFlightNoOp busyState {} happyEnv :=
  ⟨rfl, c1_single_flight busyState {} happyEnv rfl⟩

/-- C3: with the suppression flag clear, a user document-mutation event
during an in-flight request aborts the shared cancellation signal,
resets the status to idle and clears the in-flight flag (so a
subsequent trigger may start fresh); and a run during which any
mutation event fires never creates an asset or a shape — no result of a
cancelled request is materialized onto the canvas. -/
theorem c3_cancellation (st : BoardState) (opts : GenOptions) (env : GenEnv)
    (hsup : st.isUpdatingImage = false) : CancellationCorrect st opts env := by
  refine ⟨?_, ?_⟩
  · intro h
    refine ⟨?_, ?_⟩
    · simp [mutationAborts, hsup, h]
    · simp [handleEditorChange, hsup, h]
  · intro hflag
    exact generateSolution_abort_no_creation st opts env hsup
      (by simpa [allMutFlags] using hflag)

/-- C3 witness: a mutation event arriving during the generation fetch of
a concrete in-flight run. -/
theorem c3_cancellation_witness :
    ({ baseState with hasAbortController := true } : BoardState).isUpdatingImage =
      false ∧
    CancellationCorrect { baseState with hasAbortController := true } {}
      { happyEnv with mutDuringFetch := true } :=
  ⟨rfl, c3_cancellation { baseState with hasAbortController := true } {}
    { happyEnv with mutDuringFetch := true } rfl⟩

/-- C6: the canvas mutations the pipeline performs itself — asset and
shape creation in the materializing stage, the accept updates, the
reject update and delete — are all performed with the suppression flag
set, and a mutation event that arrives while the suppression flag is
set leaves the debounce countdown untouched (neither reset nor
started), so self-caused mutations never arm a new debounce-triggered
generation cycle. -/
theorem c6_self_mutation_suppression :
    (∀ (d : DebounceState) (now delay : Nat),
      handleHistoryChange true d now delay = d) ∧
    (∀ (st : BoardState) (opts : GenOptions) (env : GenEnv),
      ∀ e ∈ (generateSolution st opts env).2, e.isCanvasMutation = true →
        e.suppressedFlag = true) ∧
    (∀ (st : BoardState) (i : Nat),
      ∀ e ∈ (handleAccept st i).2, e.suppressedFlag = true) ∧
    (∀ (st : BoardState) (i : Nat),
      ∀ e ∈ (handleReject st i).2, e.suppressedFlag = true) := by
  refine ⟨?_, ?_, ?_, ?_⟩
  · intro d now delay
    rfl
  · exact generateSolution_supp
  · intro st i e he
    simp [handleAccept] at he
    subst he
    rfl
  · intro st i e he
    simp [handleReject] at he
    rcases he with rfl | rfl <;> rfl

/-- C6 witness: the suppressed debouncer event is a no-op on a live
timer, and the concrete mutations of a full run, an accept and a reject
all carry the suppression flag. -/
theorem c6_self_mutation_suppression_witness :
    handleHistoryChange true { timeout := some 5 } 7 2 = { timeout := some 5 } ∧
    (Effect.createShape 101 true).suppressedFlag = true ∧
    (Effect.updateShape 7 true).suppressedFlag = true ∧
    (Effect.deleteShape 7 true).suppressedFlag = true :=
  ⟨c6_self_mutation_suppression.1 { timeout := some 5 } 7 2,
   c6_self_mutation_suppression.2.1 baseState {} happyEnv
     (Effect.createShape 101 true) (by decide) rfl,
   c6_self_mutation_suppression.2.2.1 pendingState 7 (Effect.updateShape 7 true)
     (by decide),
   c6_self_mutation_suppression.2.2.2 pendingState 7 (Effect.deleteShape 7 true)
     (by decide)⟩

/-- C2: in a non-forced run that captures `b`, if `b` equals the stored
fingerprint the pipeline returns to idle having issued no AI call and
leaving the fingerprint unchanged; if it differs, the new fingerprint
is stored and the generation call is issued.  The capture is a function
of the shapes, the pending set and the viewport alone, so two captures
of an unchanged canvas yield identical fingerprints. -/
theorem c2_fingerprint_gate (st : BoardState) (opts : GenOptions) (env : GenEnv)
    (b : String)
    (hproc : st.isProcessing = false) (hvoice : st.isVoiceSessionActive = false)
    (hmode : ¬ opts.modeOverride.getD st.assistanceMode = AssistMode.off)
    (hshapes : st.shapes.isEmpty = false)
    (hcapne : (shapesToCapture st).isEmpty = false)
    (hcap : env.captureFn (shapesToCapture st) st.viewport = some b)
    (hm1 : env.mutDuringToImage = false) (hm2 : env.mutDuringRead = false)
    (hforce : opts.force = false) :
    FingerprintGate st opts env b := by
  refine ⟨?_, ?_, ?_⟩
  · intro hfp
    exact generateSolution_shortCircuit_run st opts env b hproc hvoice hmode hshapes
      hcapne hcap hm1 hm2 hforce hfp
  · intro hfp
    have hnosc : (!opts.force && st.lastCanvasImage == some b) = false := by
      simp [hforce, hfp]
    have hcapne' : (shapesToCapture
        { st with isProcessing := true, hasAbortController := true }).isEmpty =
        false := hcapne
    have hcap' : env.captureFn (shapesToCapture
          { st with isProcessing := true, hasAbortController := true })
        ({ st with isProcessing := true, hasAbortController := true } :
          BoardState).viewport = some b := hcap
    have hnosc' : (!opts.force &&
        ({ st with isProcessing := true, hasAbortController := true } :
          BoardState).lastCanvasImage == some b) = false := hnosc
    rw [generateSolution_entry st opts env hproc hvoice hmode hshapes,
        genCapture_some _ _ opts env b hcapne' hm1 hcap',
        genCompareFingerprint_proceed _ b _ opts _ env _ hm2 hnosc']
    refine ⟨?_, ?_⟩
    · rw [genHandleResponse_lastCanvasImage]
    · exact genHandleResponse_mem _ _ _ env _ _ (by simp)
  · intro st' h1 h2 h3
    unfold shapesToCapture
    rw [h1, h2, h3]

/-- C2 witness: re-capturing an unchanged concrete canvas whose
fingerprint is already stored. -/
theorem c2_fingerprint_gate_witness :
    FingerprintGate { baseState with lastCanvasImage := some "[1]" } {}
      happyEnv "[1]" :=
  c2_fingerprint_gate { baseState with lastCanvasImage := some "[1]" } {}
    happyEnv "[1]" rfl rfl (by decide) rfl rfl (by decide) rfl rfl rfl

/-- C4: a run in which the generation service responds ok but with a
null image URL ends exactly in the idle state — not the error state —
with the pending list untouched and no asset or shape created. -/
theorem c4_no_image_is_idle (st : BoardState) (opts : GenOptions) (env : GenEnv)
    (b : String)
    (hproc : st.isProcessing = false) (hvoice : st.isVoiceSessionActive = false)
    (hmode : ¬ opts.modeOverride.getD st.assistanceMode = AssistMode.off)
    (hshapes : st.shapes.isEmpty = false)
    (hcapne : (shapesToCapture st).isEmpty = false)
    (hcap : env.captureFn (shapesToCapture st) st.viewport = some b)
    (hm1 : env.mutDuringToImage = false) (hm2 : env.mutDuringRead = false)
    (hm3 : env.mutDuringFetch = false) (hm4 : env.mutDuringJson = false)
    (hforce : opts.force = false) (hfp : st.lastCanvasImage ≠ some b)
    (hresp : env.respOk = true) (hurl : env.imageUrl = none) :
    NoImageEndsIdle st opts env b := by
  have hnosc : (!opts.force && st.lastCanvasImage == some b) = false := by
    simp [hforce, hfp]
  have hrun := generateSolution_noImage_run st opts env b hproc hvoice hmode hshapes
    hcapne hcap hm1 hm2 hm3 hm4 hnosc hresp hurl
  refine ⟨hrun, ?_, ?_, ?_, ?_⟩
  · rw [hrun]
  · rw [hrun]
    simp
  · rw [hrun]
  · rw [hrun]
    intro e he
    simp at he
    rcases he with rfl | rfl <;> rfl

/-- C4 witness: a concrete run in which the service legitimately returns
no image. -/
theorem c4_no_image_is_idle_witness :
    NoImageEndsIdle baseState {} { happyEnv with imageUrl := none } "[1]" :=
  c4_no_image_is_idle baseState {} { happyEnv with imageUrl := none } "[1]"
    rfl rfl (by decide) rfl rfl (by decide) rfl rfl rfl rfl rfl (by decide) rfl rfl

/-- C5: for a pending artifact id occurring exactly once in the pending
list and present on the canvas, accept removes exactly one pending
entry and leaves the shape fully opaque and locked; reject removes
exactly one pending entry and deletes the shape from the canvas. -/
theorem c5_accept_reject (st : BoardState) (shapeId : Nat)
    (hcount : st.pendingImageIds.count shapeId = 1)
    (hex : ∃ s ∈ st.shapes, s.id = shapeId) :
    AcceptRejectInvariant st shapeId := by
  refine ⟨?_, ?_, ?_, ?_, ?_⟩
  · simp only [handleAccept]
    exact length_filter_ne_of_count _ _ hcount
  · intro s hs hid
    simp only [handleAccept, updateShapeBy, List.mem_map] at hs
    obtain ⟨t, ⟨t0, ht0, rfl⟩, rfl⟩ := hs
    by_cases h0 : t0.id = shapeId
    · simp [h0]
    · simp [h0] at hid
  · obtain ⟨t, ht, hid⟩ := hex
    refine ⟨(fun s => if s.id = shapeId then { s with isLocked := true } else s)
        ((fun s => if s.id = shapeId then
            { s with isLocked := false, opacity := 1 } else s) t), ?_, ?_⟩
    · simp only [handleAccept, updateShapeBy]
      exact List.mem_map_of_mem _ (List.mem_map_of_mem _ ht)
    · simp [hid]
  · simp only [handleReject]
    exact length_filter_ne_of_count _ _ hcount
  · intro s hs
    simp only [handleReject, deleteShapeById, updateShapeBy, List.mem_filter,
      List.mem_map] at hs
    obtain ⟨⟨t, ht, rfl⟩, hpred⟩ := hs
    by_cases h0 : t.id = shapeId
    · simp [h0] at hpred
    · simp [h0]

/-- C5 witness: accepting and rejecting the single pending overlay of a
concrete board. -/
theorem c5_accept_reject_witness : AcceptRejectInvariant pendingState 7 :=
  c5_accept_reject pendingState 7 (by decide) (by decide)

/-- C7: a dispatched `draw_on_canvas` tool call invokes the same
generation pipeline as auto-detection with `force: true`, the spoken
mode as override and the spoken instructions as prompt, with no
debounce involved.  The data-channel message handler chain is installed
inside `startSession`, in a render that precedes `onSessionChange(true)`,
so the dispatched call reaches a `generateSolution` closure in which
`isVoiceSessionActive` is still `false` — the entry guard passes and
the pipeline actually runs: it captures the canvas, calls the
generation service and materializes the result, and the bridge reports
success back over the data channel. -/
theorem c7_draw_on_canvas_runs (st : BoardState) (args : ToolArgs) (callId : String)
    (env : GenEnv) (tenv : ToolEnv) (b u : String)
    (hproc : st.isProcessing = false) (hvoice : st.isVoiceSessionActive = false)
    (hshapes : st.shapes.isEmpty = false)
    (hcapne : (shapesToCapture st).isEmpty = false)
    (hcap : env.captureFn (shapesToCapture st) st.viewport = some b)
    (hm1 : env.mutDuringToImage = false) (hm2 : env.mutDuringRead = false)
    (hm3 : env.mutDuringFetch = false) (hm4 : env.mutDuringJson = false)
    (hm5 : env.mutDuringLoad = false)
    (hresp : env.respOk = true) (hurl : env.imageUrl = some u)
    (hload : env.imgLoadOk = true) :
    DrawOnCanvasRunsPipeline st args callId env tenv := by
  have hrun := generateSolution_success_run st
    { modeOverride := some (coerceMode args.mode),
      promptOverride := args.instructions, force := true } env b u
    hproc hvoice (by simpa using coerceMode_ne_off args.mode) hshapes hcapne hcap
    hm1 hm2 hm3 hm4 hm5 (by simp) hresp hurl hload
  unfold DrawOnCanvasRunsPipeline
  simp [handleFunctionCall, onSolveWithPrompt, hrun]

/-- C7 witness: a concrete spoken `answer`-mode request on a non-empty
canvas with a successful generation round-trip. -/
theorem c7_draw_on_canvas_runs_witness :
    DrawOnCanvasRunsPipeline baseState { mode := some "answer" } "call_1"
      happyEnv testToolEnv :=
  c7_draw_on_canvas_runs baseState { mode := some "answer" } "call_1" happyEnv
    testToolEnv "[1]" "data:image/png;base64,gen"
    rfl rfl rfl rfl (by decide) rfl rfl rfl rfl rfl rfl rfl rfl

/-- C8 counterexample: a `draw_on_canvas` invocation whose streamed
arguments fail to parse as JSON sends nothing at all over the data
channel — no `function_call_output` and no `response.create`. -/
theorem c8_parse_failure_sends_nothing :
    (handleFunctionCall true "draw_on_canvas" none "call_1" baseState happyEnv
      testToolEnv).1 = [] := rfl

/-- C8 (amended): for every invocation of a recognized tool
(`analyze_workspace` or `draw_on_canvas`) whose arguments parse as
JSON, the bridge sends a `function_call_output` item for that call id
followed by a `response.create` trigger, on handler success and on
handler failure alike. -/
theorem c8_tool_reply_protocol (name : String) (args : ToolArgs) (callId : String)
    (st : BoardState) (env : GenEnv) (tenv : ToolEnv)
    (h : name = "analyze_workspace" ∨ name = "draw_on_canvas") :
    ToolReplyProtocol name args callId st env tenv := by
  unfold ToolReplyProtocol
  rcases h with rfl | rfl
  · rcases hc : captureCanvasImage st env with _ | img
    · exact ⟨true, by simp [handleFunctionCall, hc]⟩
    · by_cases ha : tenv.analyzeOk = true
      · exact ⟨false, by simp [handleFunctionCall, hc, ha]⟩
      · have ha' : tenv.analyzeOk = false := by
          revert ha
          cases tenv.analyzeOk <;> simp
        exact ⟨true, by simp [handleFunctionCall, hc, ha']⟩
  · exact ⟨false, by simp [handleFunctionCall]⟩

/-- C8 witness: a concrete parsed `draw_on_canvas` invocation. -/
theorem c8_tool_reply_protocol_witness :
    ToolReplyProtocol "draw_on_canvas" { mode := some "answer" } "call_1"
      baseState happyEnv testToolEnv :=
  c8_tool_reply_protocol "draw_on_canvas" { mode := some "answer" } "call_1"
    baseState happyEnv testToolEnv (Or.inr rfl)

/-- C9: the materialized overlay is scaled by
`min(viewportWidth / imageWidth, viewportHeight / imageHeight)` and
centered in the viewport; in the concrete scenario of an 800x600
viewport and a 1600x400 image the scale is 1/2, the shape is 800x200
and sits at `x = viewportX + 0`, `y = viewportY + 200`. -/
theorem c9_scale_to_fit (st : BoardState) (opts : GenOptions) (env : GenEnv)
    (b u : String)
    (hproc : st.isProcessing = false) (hvoice : st.isVoiceSessionActive = false)
    (hmode : ¬ opts.modeOverride.getD st.assistanceMode = AssistMode.off)
    (hshapes : st.shapes.isEmpty = false)
    (hcapne : (shapesToCapture st).isEmpty = false)
    (hcap : env.captureFn (shapesToCapture st) st.viewport = some b)
    (hm1 : env.mutDuringToImage = false) (hm2 : env.mutDuringRead = false)
    (hm3 : env.mutDuringFetch = false) (hm4 : env.mutDuringJson = false)
    (hm5 : env.mutDuringLoad = false)
    (hforce : opts.force = true)
    (hresp : env.respOk = true) (hurl : env.imageUrl = some u)
    (hload : env.imgLoadOk = true) :
    ScaleToFitCorrect st opts env := by
  have hrun := generateSolution_success_run st opts env b u hproc hvoice hmode
    hshapes hcapne hcap hm1 hm2 hm3 hm4 hm5 (by simp [hforce]) hresp hurl hload
  refine ⟨?_, ?_⟩
  · rw [hrun]
  · intro vx vy sid fb
    refine ⟨?_, ?_, ?_, ?_, ?_⟩ <;>
      · simp only [fitScale, materializedShape]
        norm_num [min_def]

/-- C9 witness: a concrete forced run; the fixture viewport is 800x600
at (100, 50) and the generated image is 1600x400. -/
theorem c9_scale_to_fit_witness :
    ScaleToFitCorrect baseState { force := true } happyEnv :=
  c9_scale_to_fit baseState { force := true } happyEnv "[1]"
    "data:image/png;base64,gen"
    rfl rfl (by decide) rfl rfl (by decide) rfl rfl rfl rfl rfl rfl rfl rfl rfl

/-- C10: a non-forced run that stores the new fingerprint and then fails
at the generation call (or is cancelled during it) leaves the
fingerprint overwritten — it is not restored on error or cancellation —
so a later non-forced trigger on the byte-identical canvas
short-circuits to idle without issuing any AI call: the failed
generation is never retried. -/
theorem c10_fingerprint_not_restored (st : BoardState) (opts : GenOptions)
    (env : GenEnv) (b : String)
    (hproc : st.isProcessing = false) (hvoice : st.isVoiceSessionActive = false)
    (hmode : ¬ opts.modeOverride.getD st.assistanceMode = AssistMode.off)
    (hshapes : st.shapes.isEmpty = false)
    (hsup : st.isUpdatingImage = false)
    (hcapne : (shapesToCapture st).isEmpty = false)
    (hcap : env.captureFn (shapesToCapture st) st.viewport = some b)
    (hm1 : env.mutDuringToImage = false) (hm2 : env.mutDuringRead = false)
    (hm3 : env.mutDuringFetch = false)
    (hforce : opts.force = false) (hfp : st.lastCanvasImage ≠ some b)
    (hresp : env.respOk = false) :
    FingerprintNotRestored st opts env b := by
  have hnosc : (!opts.force && st.lastCanvasImage == some b) = false := by
    simp [hforce, hfp]
  have herr := generateSolution_error_run st opts env b hproc hvoice hmode hshapes
    hcapne hcap hm1 hm2 hm3 hnosc hresp
  have h2 := generateSolution_shortCircuit_run
    ({ st with lastCanvasImage := some b,
               errorMessage := "Solution generation failed",
               status := .error, statusMessage := "",
               isProcessing := false, hasAbortController := false } : BoardState)
    opts env b rfl hvoice hmode hshapes hcapne hcap hm1 hm2 hforce rfl
  have hcancel := generateSolution_cancelFetch_run st opts
    { env with mutDuringFetch := true } b hproc hvoice hmode hshapes hsup
    hcapne hcap hm1 hm2 rfl hnosc
  refine ⟨⟨?_, ?_, ?_, ?_⟩, ?_, ?_, ?_⟩
  · rw [herr]
  · rw [herr]
  · rw [herr]
  · rw [herr]
  · rw [hcancel]
  · rw [herr, h2]
  · intro m p
    rw [herr, h2]
    simp

/-- C10 witness: a concrete run whose generation call returns a
non-success status, followed by a retry on the unchanged canvas. -/
theorem c10_fingerprint_not_restored_witness :
    FingerprintNotRestored baseState {} { happyEnv with respOk := false } "[1]" :=
  c10_fingerprint_not_restored baseState {} { happyEnv with respOk := false } "[1]"
    rfl rfl (by decide) rfl rfl rfl (by decide) rfl rfl rfl rfl (by decide) rfl

end Madhacks
